import Mathlib

set_option maxRecDepth 4000

/-!
Shallow embedding of the asn1go value-notation scanner (scanner.go) and its
validation driver (checkValid / Valid), together with theorems settling the
frozen claims about them.

Bytes are modelled as `Nat` (a Go `byte` ranged over by `for _, c := range
data`), byte counters as `Nat`, and the mutable `scanner` struct as a record
threaded through every transition.  The Go `step` function pointer is
represented by the enumeration `ScanState` plus the dispatcher `stepOf`; each
Go state function `stateXxx` becomes a Lean function of the same name
returning the mutated scanner together with the opcode it returns in Go.
-/

/-- Opcodes returned by the state transition functions (Go `iota` block). -/
def scanContinue : Nat := 0
def scanBeginLiteral : Nat := 1
def scanBeginObject : Nat := 2
def scanObjectKey : Nat := 3
def scanObjectValue : Nat := 4
def scanEndObject : Nat := 5
def scanSkipSpace : Nat := 6
def scanBeginType : Nat := 7
def scanEndType : Nat := 8
def scanBeginIdentifierOrType : Nat := 9
def scanEndIdentifier : Nat := 10
def scanEnd : Nat := 11
def scanError : Nat := 12

/-- Parse-context tags stored on the `parseState` stack (Go `iota` block). -/
def parseObjectKey : Nat := 0
def parseObjectValue : Nat := 1
def parseIdentifier : Nat := 2
def parseType : Nat := 3
def parseValueName : Nat := 4

/-- Maximum nesting depth (Go `maxNestingDepth`). -/
def maxNestingDepth : Nat := 10000

/-- Go `SyntaxError`: a message and the byte offset at which it occurred. -/
structure SyntaxError where
  msg : String
  offset : Nat
deriving DecidableEq, Repr

/-- The Go `scanner.step` function pointer, as an enumeration of the state
functions it can point to. -/
inductive ScanState where
  | sBeginTop
  | sBeginName
  | sInName
  | sAssignmentOperator1
  | sAssignmentOperator2
  | sBeginValueName
  | sInValueName
  | sBeginValue
  | sEndValue
  | sEndTop
  | sBeginObjectKeyOrEmpty
  | sBeginObjectKey
  | sInObjectKey
  | sInOctetString
  | sInHexadecimalString
  | sSuffixAfterHexadecimalString
  | sN
  | sNu
  | sNul
  | s1
  | s0
  | sDot
  | sDot0
  | sE
  | sESign
  | sE0
  | sError
deriving DecidableEq, Repr

/-- The Go `scanner` struct.  `bytes` is the running byte counter, which
`reset` deliberately does not zero. -/
structure Scanner where
  step : ScanState
  endTop : Bool
  parseState : List Nat
  err : Option SyntaxError
  bytes : Nat
  allowMultipleTopValues : Bool
deriving DecidableEq, Repr

/-- Go `isSpace`. -/
def isSpace (c : Nat) : Bool :=
  c ≤ 32 && (c == 32 || c == 9 || c == 13 || c == 10)

/-- Go `isAlpha`. -/
def isAlpha (c : Nat) : Bool :=
  (97 ≤ c && c ≤ 122) || (65 ≤ c && c ≤ 90)

/-- Go `isDigit`. -/
def isDigit (c : Nat) : Bool :=
  48 ≤ c && c ≤ 57

/-- Go `isLiteral`. -/
def isLiteral (c : Nat) : Bool :=
  isAlpha c || isDigit c

/-- Lowercase hexadecimal digit, used by the `strconv.Quote` model. -/
def toHexDigit (n : Nat) : Char :=
  if n < 10 then Char.ofNat (48 + n) else Char.ofNat (87 + n)

/-- Two lowercase hexadecimal digits. -/
def toHex2 (n : Nat) : String :=
  String.mk [toHexDigit (n / 16), toHexDigit (n % 16)]

/-- `unicode.IsPrint` restricted to the code points a single Go byte can
denote (U+0000..U+00FF): printable ASCII, and Latin-1 from U+00A1 up except
the soft hyphen U+00AD. -/
def isPrintLatin1 (c : Nat) : Bool :=
  (32 ≤ c && c ≤ 126) || (161 ≤ c && c ≤ 255 && c != 173)

/-- Go `quoteChar`: formats byte `c` as a quoted character literal, special
casing the two quote characters and otherwise following `strconv.Quote` on
the one-rune string `string(c)`. -/
def quoteChar (c : Nat) : String :=
  if c = 39 then "\x27\\\x27\x27"
  else if c = 34 then "\x27\"\x27"
  else
    let body :=
      if c = 92 then "\\\\"
      else if c = 7 then "\\a"
      else if c = 8 then "\\b"
      else if c = 12 then "\\f"
      else if c = 10 then "\\n"
      else if c = 13 then "\\r"
      else if c = 9 then "\\t"
      else if c = 11 then "\\v"
      else if isPrintLatin1 c then String.singleton (Char.ofNat c)
      else if c < 32 || c = 127 then "\\x" ++ toHex2 c
      else "\\u00" ++ toHex2 c
    "\x27" ++ body ++ "\x27"

/-- Go `scanner.error`: records an error and switches to the error state. -/
def Scanner.error (s : Scanner) (c : Nat) (context : String) : Scanner × Nat :=
  ({ s with
      step := .sError
      err := some ⟨"invalid character " ++ quoteChar c ++ " " ++ context, s.bytes⟩ },
   scanError)

/-- Go `scanner.pushParseState`: pushes a parse state, erroring if the result
would exceed `maxNestingDepth`. -/
def Scanner.pushParseState (s : Scanner) (c : Nat) (newParseState : Nat)
    (successState : Nat) : Scanner × Nat :=
  let s := { s with parseState := s.parseState ++ [newParseState] }
  if s.parseState.length ≤ maxNestingDepth then (s, successState)
  else s.error c "exceeded max depth"

/-- Go `scanner.popParseState`.  (When the stack is already empty the Go code
panics on a negative slice bound; no input used in the theorems below reaches
that situation, and the `Nat` truncation below then behaves like popping to an
empty stack.) -/
def Scanner.popParseState (s : Scanner) : Scanner :=
  let n := s.parseState.length - 1
  let ps := s.parseState.take n
  if n = 0 then { s with parseState := ps, step := .sEndTop, endTop := true }
  else { s with parseState := ps, step := .sEndValue }

/-- Go `stateError`: absorbing error state. -/
def stateError (s : Scanner) (_c : Nat) : Scanner × Nat :=
  (s, scanError)

/-- Go `stateEndTop`: only space should be seen after the top-level value;
with `allowMultipleTopValues` a non-space byte switches back to
`stateBeginTop` (consuming the byte) and anything else returns `scanEnd`. -/
def stateEndTop (s : Scanner) (c : Nat) : Scanner × Nat :=
  if isSpace c = false then
    if s.allowMultipleTopValues then ({ s with step := .sBeginTop }, scanContinue)
    else (s, scanEnd)
  else (s, scanEnd)

/-- Go `stateEndValue`: the state after completing a value. -/
def stateEndValue (s : Scanner) (c : Nat) : Scanner × Nat :=
  let n := s.parseState.length
  if n = 0 then
    stateEndTop { s with step := .sEndTop, endTop := true } c
  else if isSpace c then ({ s with step := .sEndValue }, scanSkipSpace)
  else
    let ps := s.parseState.getD (n - 1) 0
    if ps = parseIdentifier then
      let s := s.popParseState
      if c = 58 then ({ s with step := .sAssignmentOperator1 }, scanEndType)
      else if isLiteral c then
        Scanner.pushParseState { s with step := .sInName } c parseType scanBeginType
      else s.error c "after identifier or type"
    else if ps = parseType then
      if c = 58 then ({ s.popParseState with step := .sAssignmentOperator1 }, scanEndType)
      else s.error c "after type"
    else if ps = parseValueName then
      let s := s.popParseState
      if c = 58 then ({ s with step := .sBeginValue }, scanContinue)
      else s.error c "after value name"
    else if ps = parseObjectKey then
      if isLiteral c then
        ({ s with parseState := s.parseState.set (n - 1) parseObjectValue,
                  step := .sBeginValue }, scanObjectKey)
      else s.error c "no idea what to do"
    else if ps = parseObjectValue then
      if c = 44 then
        ({ s with parseState := s.parseState.set (n - 1) parseObjectKey,
                  step := .sBeginObjectKey }, scanObjectValue)
      else if c = 125 then (s.popParseState, scanEndObject)
      else s.error c "after object key:value pair"
    else s.error c "no idea what to do"

/-- Go `stateAssignmentOperator1`: after the first `:` of `::=`. -/
def stateAssignmentOperator1 (s : Scanner) (c : Nat) : Scanner × Nat :=
  if c = 58 then ({ s with step := .sAssignmentOperator2 }, scanContinue)
  else s.error c "in assignment operator (expected \x27:\x27)"

/-- Go `stateAssignmentOperator2`: after the second `:` of `::=`. -/
def stateAssignmentOperator2 (s : Scanner) (c : Nat) : Scanner × Nat :=
  if c = 61 then ({ s with step := .sBeginValueName }, scanContinue)
  else s.error c "in assignment operator (expected \x27=\x27)"

/-- Go `stateBeginName`. -/
def stateBeginName (s : Scanner) (c : Nat) : Scanner × Nat :=
  if isAlpha c then ({ s with step := .sInName }, scanBeginLiteral)
  else s.error c "looking for beginning of identifier or type"

/-- Go `stateInName`. -/
def stateInName (s : Scanner) (c : Nat) : Scanner × Nat :=
  if isSpace c then ({ s with step := .sEndValue }, scanContinue)
  else if isLiteral c || c = 95 then (s, scanContinue)
  else s.error c "in identifier or type"

/-- Go `stateBeginValueName`: the state after reading `::=`. -/
def stateBeginValueName (s : Scanner) (c : Nat) : Scanner × Nat :=
  if isSpace c then (s, scanSkipSpace)
  else if isAlpha c then
    Scanner.pushParseState { s with step := .sInValueName } c parseValueName scanBeginLiteral
  else s.error c "looking for beginning of value name"

/-- Go `stateInValueName`. -/
def stateInValueName (s : Scanner) (c : Nat) : Scanner × Nat :=
  if isSpace c then ({ s with step := .sEndValue }, scanContinue)
  else if isLiteral c || c = 95 || c = 45 then (s, scanContinue)
  else s.error c "in value name"

/-- Go `stateBeginObjectKey`. -/
def stateBeginObjectKey (s : Scanner) (c : Nat) : Scanner × Nat :=
  if isSpace c then (s, scanSkipSpace)
  else if isAlpha c then ({ s with step := .sInObjectKey }, scanBeginLiteral)
  else s.error c "looking for beginning of object key string"

/-- Go `stateInObjectKey`. -/
def stateInObjectKey (s : Scanner) (c : Nat) : Scanner × Nat :=
  if isSpace c then
    let n := s.parseState.length
    ({ s with parseState := s.parseState.set (n - 1) parseObjectValue,
              step := .sBeginValue }, scanContinue)
  else (s, scanContinue)

/-- Go `stateBeginObjectKeyOrEmpty`: the state after reading an opening
brace. -/
def stateBeginObjectKeyOrEmpty (s : Scanner) (c : Nat) : Scanner × Nat :=
  if isSpace c then (s, scanSkipSpace)
  else if c = 125 then
    let n := s.parseState.length
    stateEndValue { s with parseState := s.parseState.set (n - 1) parseObjectValue } c
  else if c = 123 then
    let n := s.parseState.length
    Scanner.pushParseState
      { s with parseState := s.parseState.set (n - 1) parseObjectValue,
               step := .sBeginObjectKeyOrEmpty } c parseObjectKey scanBeginObject
  else stateBeginObjectKey s c

/-- Go `stateBeginValue`. -/
def stateBeginValue (s : Scanner) (c : Nat) : Scanner × Nat :=
  if isSpace c then (s, scanSkipSpace)
  else if c = 123 then
    Scanner.pushParseState { s with step := .sBeginObjectKeyOrEmpty } c
      parseObjectKey scanBeginObject
  else if c = 125 then (s.popParseState, scanEndObject)
  else if c = 58 then ({ s with step := .sBeginValue }, scanObjectValue)
  else if c = 34 then ({ s with step := .sInOctetString }, scanBeginLiteral)
  else if c = 39 then ({ s with step := .sInHexadecimalString }, scanBeginLiteral)
  else if c = 78 then ({ s with step := .sN }, scanBeginLiteral)
  else if 49 ≤ c ∧ c ≤ 57 then ({ s with step := .s1 }, scanBeginLiteral)
  else s.error c "looking for beginning of value"

/-- Go `stateInOctetString`. -/
def stateInOctetString (s : Scanner) (c : Nat) : Scanner × Nat :=
  if c = 34 then ({ s with step := .sEndValue }, scanContinue)
  else if c < 32 then s.error c "in string literal"
  else (s, scanContinue)

/-- Go `stateInHexadecimalString`. -/
def stateInHexadecimalString (s : Scanner) (c : Nat) : Scanner × Nat :=
  if c = 39 then ({ s with step := .sSuffixAfterHexadecimalString }, scanContinue)
  else if c < 32 then s.error c "in hexadecimal string literal"
  else (s, scanContinue)

/-- Go `stateSuffixAfterHexadecimalString`. -/
def stateSuffixAfterHexadecimalString (s : Scanner) (c : Nat) : Scanner × Nat :=
  if c = 72 then ({ s with step := .sEndValue }, scanContinue)
  else s.error c "in hexadecimal string (expected \x27H\x27)"

/-- Go `stateN`. -/
def stateN (s : Scanner) (c : Nat) : Scanner × Nat :=
  if c = 85 then ({ s with step := .sNu }, scanContinue)
  else s.error c "in literal NULL (expecting \x27U\x27)"

/-- Go `stateNu`. -/
def stateNu (s : Scanner) (c : Nat) : Scanner × Nat :=
  if c = 76 then ({ s with step := .sNul }, scanContinue)
  else s.error c "in literal NULL (expecting \x27L\x27)"

/-- Go `stateNul`. -/
def stateNul (s : Scanner) (c : Nat) : Scanner × Nat :=
  if c = 76 then ({ s with step := .sEndValue }, scanContinue)
  else s.error c "in literal NULL (expecting \x27L\x27)"

/-- Go `state0`: after reading `0` during a number. -/
def state0 (s : Scanner) (c : Nat) : Scanner × Nat :=
  if c = 46 then ({ s with step := .sDot }, scanContinue)
  else if c = 101 || c = 69 then ({ s with step := .sE }, scanContinue)
  else stateEndValue s c

/-- Go `state1`: after reading a non-zero leading digit. -/
def state1 (s : Scanner) (c : Nat) : Scanner × Nat :=
  if 48 ≤ c ∧ c ≤ 57 then ({ s with step := .s1 }, scanContinue)
  else state0 s c

/-- Go `stateDot`. -/
def stateDot (s : Scanner) (c : Nat) : Scanner × Nat :=
  if 48 ≤ c ∧ c ≤ 57 then ({ s with step := .sDot0 }, scanContinue)
  else s.error c "after decimal point in numeric literal"

/-- Go `stateDot0`. -/
def stateDot0 (s : Scanner) (c : Nat) : Scanner × Nat :=
  if 48 ≤ c ∧ c ≤ 57 then (s, scanContinue)
  else if c = 101 || c = 69 then ({ s with step := .sE }, scanContinue)
  else stateEndValue s c

/-- Go `stateESign`. -/
def stateESign (s : Scanner) (c : Nat) : Scanner × Nat :=
  if 48 ≤ c ∧ c ≤ 57 then ({ s with step := .sE0 }, scanContinue)
  else s.error c "in exponent of numeric literal"

/-- Go `stateE`. -/
def stateE (s : Scanner) (c : Nat) : Scanner × Nat :=
  if c = 43 || c = 45 then ({ s with step := .sESign }, scanContinue)
  else stateESign s c

/-- Go `stateE0`. -/
def stateE0 (s : Scanner) (c : Nat) : Scanner × Nat :=
  if 48 ≤ c ∧ c ≤ 57 then (s, scanContinue)
  else stateEndValue s c

/-- Go `stateBeginTop`. -/
def stateBeginTop (s : Scanner) (c : Nat) : Scanner × Nat :=
  if isSpace c then (s, scanSkipSpace)
  else if isAlpha c then
    Scanner.pushParseState { s with step := .sBeginName } c
      parseIdentifier scanBeginIdentifierOrType
  else s.error c "looking for beginning of top value"

/-- Dispatcher for the `step` function pointer: one transition of the
scanner on byte `c`. -/
def stepOf (s : Scanner) (c : Nat) : Scanner × Nat :=
  match s.step with
  | .sBeginTop => stateBeginTop s c
  | .sBeginName => stateBeginName s c
  | .sInName => stateInName s c
  | .sAssignmentOperator1 => stateAssignmentOperator1 s c
  | .sAssignmentOperator2 => stateAssignmentOperator2 s c
  | .sBeginValueName => stateBeginValueName s c
  | .sInValueName => stateInValueName s c
  | .sBeginValue => stateBeginValue s c
  | .sEndValue => stateEndValue s c
  | .sEndTop => stateEndTop s c
  | .sBeginObjectKeyOrEmpty => stateBeginObjectKeyOrEmpty s c
  | .sBeginObjectKey => stateBeginObjectKey s c
  | .sInObjectKey => stateInObjectKey s c
  | .sInOctetString => stateInOctetString s c
  | .sInHexadecimalString => stateInHexadecimalString s c
  | .sSuffixAfterHexadecimalString => stateSuffixAfterHexadecimalString s c
  | .sN => stateN s c
  | .sNu => stateNu s c
  | .sNul => stateNul s c
  | .s1 => state1 s c
  | .s0 => state0 s c
  | .sDot => stateDot s c
  | .sDot0 => stateDot0 s c
  | .sE => stateE s c
  | .sESign => stateESign s c
  | .sE0 => stateE0 s c
  | .sError => stateError s c

/-- Go `scanner.reset`: prepares the scanner for use.  By design it does not
zero `bytes` (and it does not touch `allowMultipleTopValues`). -/
def Scanner.reset (s : Scanner) : Scanner :=
  { s with step := .sBeginTop, parseState := [], err := none, endTop := false }

/-- Go `scanner.eof`: tells the scanner that the end of input was reached;
feeds one synthetic space byte to flush a pending completion. -/
def Scanner.eof (s : Scanner) : Scanner × Nat :=
  if s.err.isSome then (s, scanError)
  else if s.endTop then (s, scanEnd)
  else
    let s1 := (stepOf s 32).1
    if s1.endTop then (s1, scanEnd)
    else if s1.err.isSome then (s1, scanError)
    else ({ s1 with err := some ⟨"unexpected end of JSON input", s1.bytes⟩ }, scanError)

/-- Go `newScanner` for a caller that just acquired a fresh instance: byte
counter zeroed, `allowMultipleTopValues` defaulted to true, then `reset`. -/
def newScanner : Scanner :=
  Scanner.reset ⟨.sBeginTop, false, [], none, 0, true⟩

/-- The byte loop of Go `checkValid`: increments `bytes`, steps, and stops
with `false` at the first `scanError`. -/
def feed : Scanner → List Nat → Scanner × Bool
  | s, [] => (s, true)
  | s, c :: rest =>
    let p := stepOf { s with bytes := s.bytes + 1 } c
    if p.2 = scanError then (p.1, false)
    else feed p.1 rest

/-- Go `checkValid`: resets the scanner, feeds every byte, short-circuits on
the first error, then consults `eof`.  Returns the error (Go returns
`scan.err` or nil) together with the final scanner, which Go mutates in
place. -/
def checkValid (data : List Nat) (scan : Scanner) : Option SyntaxError × Scanner :=
  let p := feed scan.reset data
  if p.2 = false then (p.1.err, p.1)
  else
    let q := p.1.eof
    if q.2 = scanError then (q.1.err, q.1)
    else (none, q.1)

/-- Go `Valid`: reports whether data is valid, using a fresh scanner. -/
def Valid (data : List Nat) : Bool :=
  (checkValid data newScanner).1.isNone

/-!
Concrete inputs used in the theorems below.  Each is the ASCII byte sequence
of the string shown in its doc comment.
-/

/-- Bytes of `ab c ::= d : NULL` followed by a garbage `@` byte. -/
def inputNullAt : List Nat := [97, 98, 32, 99, 32, 58, 58, 61, 32, 100, 32, 58, 32, 78, 85, 76, 76, 64]

/-- Bytes of `ab c ::= d : NULL` followed by three garbage `@` bytes. -/
def inputNullAt3 : List Nat := inputNullAt ++ [64, 64]

/-- Bytes of `ab c ::= d : ` followed by an opening brace and ` ab`: an input
truncated strictly inside an open record. -/
def inputOpenRecord : List Nat := [97, 98, 32, 99, 32, 58, 58, 61, 32, 100, 32, 58, 32, 123, 32, 97, 98]

/-- Bytes of `value1 X ::= NUL`. -/
def inputNul : List Nat := [118, 97, 108, 117, 101, 49, 32, 88, 32, 58, 58, 61, 32, 78, 85, 76]

/-- Bytes of `ab c ::= d : NX`: a malformed NULL literal in value position. -/
def inputNX : List Nat := [97, 98, 32, 99, 32, 58, 58, 61, 32, 100, 32, 58, 32, 78, 88]

/-- Bytes of `ab c ::= d : ` followed by an open record ` ab 0 ` and a closing
brace: a record member whose value is the single digit `0`. -/
def inputZeroMember : List Nat :=
  [97, 98, 32, 99, 32, 58, 58, 61, 32, 100, 32, 58, 32, 123, 32, 97, 98, 32, 48, 32, 125]

/-- Bytes of `ab c ::= d : 123`: a well-formed value ending in a digit run
with no trailing delimiter. -/
def inputDigits : List Nat := [97, 98, 32, 99, 32, 58, 58, 61, 32, 100, 32, 58, 32, 49, 50, 51]

/-- Bytes of `ab c ::= d : `: a prefix that leaves the scanner ready to begin
a top-level value's value position. -/
def inputPrefixValue : List Nat := [97, 98, 32, 99, 32, 58, 58, 61, 32, 100, 32, 58, 32]

/-- Shifts a recorded error's offset by `b` bytes. -/
def shiftErr (b : Nat) (e : Option SyntaxError) : Option SyntaxError :=
  e.map fun x => ⟨x.msg, x.offset + b⟩

/-- A scanner whose byte counter started at `b` instead of 0: same control
state, byte counter and any recorded error offset shifted by `b`. -/
def shiftScanner (b : Nat) (s : Scanner) : Scanner :=
  { s with bytes := s.bytes + b, err := shiftErr b s.err }

/-- Claim C1 (code bug): appending the single non-whitespace garbage byte `@`
to the well-formed top-level value `ab c ::= d : NULL` yields an input that
`checkValid` reports as valid, although `@` does not start a valid top-level
value (scanning `@` alone fails immediately).  `stateEndTop` consumes the
first non-space byte after a completed top value without validating it, and
`endTop` is never cleared, so `eof` reports success. -/
theorem c1_garbage_after_top_value_accepted :
    (checkValid inputNullAt newScanner).1 = none ∧
    (checkValid [64] newScanner).1 =
      some ⟨"invalid character \x27@\x27 looking for beginning of top value", 1⟩ := by
  decide

/-- Claim C2: once the scanner is in the error state, every step call, on any
byte, returns `scanError` and leaves the whole scanner unchanged (in
particular `step`, `parseState`, `err` and `endTop` are all unchanged). -/
theorem c2_error_state_is_absorbing (s : Scanner) (c : Nat)
    (hstep : s.step = .sError) (_herr : s.err ≠ none) :
    stepOf s c = (s, scanError) := by
  simp [stepOf, hstep, stateError]

/-- Witness for C2 at a concrete errored scanner and byte. -/
theorem c2_error_state_is_absorbing_witness :
    let sErr : Scanner :=
      ⟨.sError, false, [],
        some ⟨"invalid character \x27@\x27 looking for beginning of top value", 1⟩, 1, true⟩
    stepOf sErr 64 = (sErr, scanError) :=
  c2_error_state_is_absorbing _ 64 rfl (by decide)

/-- Claim C3 (code bug): the input `ab c ::= d : { ab`, truncated strictly
inside an open record (its `{` is never matched), is reported valid by
`checkValid` — not a premature-end error.  The final parse stack indeed still
holds the open object frame.  Root cause: `popParseState` latches
`endTop := true` as soon as the identifier frame pops, so `eof` returns
`scanEnd` without ever checking for unterminated constructs. -/
theorem c3_truncated_open_record_accepted :
    (checkValid inputOpenRecord newScanner).1 = none ∧
    (feed newScanner.reset inputOpenRecord).1.parseState = [parseObjectKey] := by
  decide

/-- Claim C4 (code bug): with `allowMultipleTopValues = false`, non-whitespace
bytes fed after the first top-level value completes do not produce any error:
`stateEndTop` just keeps returning `scanEnd`, so `checkValid` succeeds on
`ab c ::= d : NULL@@@`. -/
theorem c4_single_top_mode_ignores_trailing_bytes :
    (checkValid inputNullAt3 ⟨.sBeginTop, false, [], none, 0, false⟩).1 = none := by
  decide

/-- Counterexample for claim C8: `value1 X ::= NUL` does not fail at all —
`checkValid` reports it valid (the letters after `::=` are scanned as a value
name, and `endTop` was latched when the identifier completed), so in
particular no malformed-NULL-literal error is produced. -/
theorem c8_nul_after_assignment_accepted :
    (checkValid inputNul newScanner).1 = none := by
  decide

/-- Claim C8 as amended: `value1 X ::= NUL` is reported valid, because after
`::=` the scanner expects a value name (the NULL literal is only recognized
in value position, after `name :`); a malformed NULL literal in value
position with a following byte, as in `ab c ::= d : NX`, does fail with the
malformed-NULL-literal error naming the expected byte, at the offending
byte's offset. -/
theorem c8_nul_value_name_vs_null_literal :
    (checkValid inputNul newScanner).1 = none ∧
    (checkValid inputNX newScanner).1 =
      some ⟨"invalid character \x27X\x27 in literal NULL (expecting \x27U\x27)", 15⟩ := by
  decide

/-- Claim C9 (code bug): a record member whose value is the single digit `0`
followed by a delimiter is rejected: `stateBeginValue` only enters the number
scanner for leading digits 1-9 (the `0` case present in `state0` and its
doc comment is unreachable as a leading digit), so `ab c ::= d : ` with open
record ` ab 0 ` and closing brace fails at the `0` byte. -/
theorem c9_zero_value_rejected :
    (checkValid inputZeroMember newScanner).1 =
      some ⟨"invalid character \x270\x27 looking for beginning of value", 19⟩ := by
  decide

/-- Feeding a concatenation: the second half is scanned from the state the
first half left, unless the first half already stopped with an error. -/
theorem feed_append (s : Scanner) (xs ys : List Nat) :
    feed s (xs ++ ys) =
      if (feed s xs).2 then feed (feed s xs).1 ys else feed s xs := by
  induction xs generalizing s with
  | nil => simp [feed]
  | cons c rest ih =>
    simp only [List.cons_append, feed]
    by_cases h : (stepOf { s with bytes := s.bytes + 1 } c).2 = scanError
    · simp [h]
    · simp [h, ih]

/-- Feeding only whitespace bytes from the initial state leaves the scanner
in the initial state, having merely counted the bytes. -/
theorem feed_spaces (l : List Nat) (h : ∀ c ∈ l, isSpace c = true) (b : Nat) (fl : Bool) :
    feed ⟨.sBeginTop, false, [], none, b, fl⟩ l =
      (⟨.sBeginTop, false, [], none, b + l.length, fl⟩, true) := by
  induction l generalizing b with
  | nil => simp [feed]
  | cons c rest ih =>
    have hc : isSpace c = true := h c (by simp)
    have hr : ∀ x ∈ rest, isSpace x = true := fun x hx => h x (by simp [hx])
    simp only [feed]
    rw [show stepOf ⟨.sBeginTop, false, [], none, b + 1, fl⟩ c =
        (⟨.sBeginTop, false, [], none, b + 1, fl⟩, scanSkipSpace) from by
      simp [stepOf, stateBeginTop, hc]]
    rw [show ((⟨.sBeginTop, false, [], none, b + 1, fl⟩, scanSkipSpace) : Scanner × Nat).2 = scanSkipSpace from rfl]
    simp only [scanSkipSpace, scanError]
    rw [if_neg (by omega), ih hr]
    have : b + 1 + rest.length = b + (rest.length + 1) := by omega
    simp [this]

/-- Claim C10: for the empty input and for every input consisting solely of
whitespace bytes, `checkValid` returns the premature-end syntax error with
offset equal to the number of bytes consumed, and `Valid` returns false. -/
theorem c10_empty_or_whitespace_premature_end (data : List Nat)
    (h : ∀ c ∈ data, isSpace c = true) :
    (checkValid data newScanner).1 = some ⟨"unexpected end of JSON input", data.length⟩ ∧
    Valid data = false := by
  have key : (checkValid data newScanner).1 =
      some ⟨"unexpected end of JSON input", data.length⟩ := by
    simp only [checkValid]
    rw [show newScanner.reset = (⟨.sBeginTop, false, [], none, 0, true⟩ : Scanner) from rfl]
    rw [feed_spaces data h 0 true]
    simp [Scanner.eof, stepOf, stateBeginTop, isSpace, scanSkipSpace, scanError, scanEnd]
  exact ⟨key, by simp [Valid, key]⟩

/-- Witness for C10 at the empty input and at an all-whitespace input. -/
theorem c10_empty_or_whitespace_premature_end_witness :
    ((checkValid [] newScanner).1 = some ⟨"unexpected end of JSON input", 0⟩ ∧
      Valid [] = false) ∧
    ((checkValid [32, 9, 10, 13] newScanner).1 = some ⟨"unexpected end of JSON input", 4⟩ ∧
      Valid [32, 9, 10, 13] = false) := by
  constructor
  · simpa using c10_empty_or_whitespace_premature_end [] (by decide)
  · simpa using c10_empty_or_whitespace_premature_end [32, 9, 10, 13] (by decide)

/-- Claim C7: an input that ends mid digit run of a top-level value (scanner
left in the number state with an empty parse stack and no error) is accepted
by `checkValid`: either the end-of-top flag is already latched, or `eof`'s
synthesized whitespace byte completes the pending numeric literal; and the
same input followed by a whitespace delimiter is accepted as well. -/
theorem c7_trailing_digit_run_accepted (data : List Nat) (s : Scanner)
    (hfeed : feed newScanner.reset data = (s, true))
    (hstep : s.step = .s1) (hstack : s.parseState = []) (herr : s.err = none) :
    (checkValid data newScanner).1 = none ∧
    (checkValid (data ++ [32]) newScanner).1 = none := by
  obtain ⟨st, et, ps, er, b, fl⟩ := s
  simp only at hstep hstack herr
  subst hstep hstack herr
  constructor
  · simp only [checkValid, hfeed]
    cases et <;>
      simp [Scanner.eof, stepOf, state1, state0, stateEndValue, stateEndTop,
        isSpace, scanSkipSpace, scanError, scanEnd]
  · simp only [checkValid, feed_append, hfeed]
    rw [show feed ⟨.s1, et, [], none, b, fl⟩ [32] =
        (⟨.sEndTop, true, [], none, b + 1, fl⟩, true) from by
      cases et <;>
        simp [feed, stepOf, state1, state0, stateEndValue, stateEndTop,
          isSpace, scanSkipSpace, scanError, scanEnd]]
    simp [Scanner.eof, scanError, scanEnd]

/-- Witness for C7 at the concrete input `ab c ::= d : 123`. -/
theorem c7_trailing_digit_run_accepted_witness :
    (checkValid inputDigits newScanner).1 = none ∧
    (checkValid (inputDigits ++ [32]) newScanner).1 = none :=
  c7_trailing_digit_run_accepted inputDigits ⟨.s1, true, [], none, 16, true⟩
    (by decide) rfl rfl rfl

/-- Setting the element just past a replicate block rewrites the singleton
tail. -/
theorem replicate_concat_set (j x y z : Nat) :
    (List.replicate j x ++ [y]).set j z = List.replicate j x ++ [z] := by
  induction j with
  | zero => simp
  | succ n ih => simp [List.replicate_succ, ih]

/-- Feeding `k` further opening braces while inside an anonymous-record chain:
each brace converts the innermost key frame to a value frame and pushes a new
key frame, as long as the stack stays within `maxNestingDepth`. -/
theorem feed_braces (k : Nat) : ∀ (j b : Nat) (et fl : Bool),
    j + 1 + k ≤ maxNestingDepth →
    feed ⟨.sBeginObjectKeyOrEmpty, et,
          List.replicate j parseObjectValue ++ [parseObjectKey], none, b, fl⟩
      (List.replicate k 123)
    = (⟨.sBeginObjectKeyOrEmpty, et,
        List.replicate (j + k) parseObjectValue ++ [parseObjectKey], none, b + k, fl⟩,
       true) := by
  induction k with
  | zero => intro j b et fl _; simp [feed]
  | succ m ih =>
    intro j b et fl h
    rw [List.replicate_succ]
    simp only [feed]
    rw [show stepOf ⟨.sBeginObjectKeyOrEmpty, et,
          List.replicate j parseObjectValue ++ [parseObjectKey], none, b + 1, fl⟩ 123
        = (⟨.sBeginObjectKeyOrEmpty, et,
            List.replicate (j + 1) parseObjectValue ++ [parseObjectKey], none, b + 1, fl⟩,
           scanBeginObject) from by
      simp only [stepOf, stateBeginObjectKeyOrEmpty, Scanner.pushParseState,
        List.length_append, List.length_set, List.length_replicate, List.length_cons,
        List.length_nil]
      rw [if_pos trivial]
      rw [show j + 1 - 1 = j from by omega, replicate_concat_set,
        show List.replicate j parseObjectValue ++ [parseObjectValue]
          = List.replicate (j + 1) parseObjectValue from (List.replicate_succ' _ _).symm]
      rw [if_pos (show j + 1 + 1 ≤ maxNestingDepth from by
        simp only [maxNestingDepth] at h ⊢; omega)]
      rw [if_neg (by decide), if_neg (by decide)]]
    rw [show (((⟨.sBeginObjectKeyOrEmpty, et,
        List.replicate (j + 1) parseObjectValue ++ [parseObjectKey], none, b + 1, fl⟩ : Scanner),
        scanBeginObject) : Scanner × Nat).2 = scanBeginObject from rfl]
    rw [if_neg (by decide)]
    rw [ih (j + 1) (b + 1) et fl (by omega)]
    have h1 : j + 1 + m = j + (m + 1) := by omega
    have h2 : b + 1 + m = b + (m + 1) := by omega
    rw [h1, h2]

/-- One successful feed step, for chaining concrete runs. -/
theorem feed_cons_step (s s' : Scanner) (c op : Nat) (rest : List Nat)
    (h : stepOf { s with bytes := s.bytes + 1 } c = (s', op)) (hop : op ≠ scanError) :
    feed s (c :: rest) = feed s' rest := by
  simp only [feed, h]
  rw [if_neg (by simpa using hop)]

/-- End-of-input with no recorded error and the end-of-top flag set reports
`scanEnd` without stepping. -/
theorem eof_of_endTop (s : Scanner) (he : s.err = none) (ht : s.endTop = true) :
    s.eof = (s, scanEnd) := by
  simp [Scanner.eof, he, ht]

/-- `checkValid` when the byte loop finishes without a step error. -/
theorem checkValid_of_feed_ok (data : List Nat) (scan s : Scanner)
    (h : feed scan.reset data = (s, true)) :
    checkValid data scan =
      if s.eof.2 = scanError then (s.eof.1.err, s.eof.1) else (none, s.eof.1) := by
  simp only [checkValid, h]
  rw [if_neg (by decide)]

/-- `checkValid` when the byte loop stops at a step error. -/
theorem checkValid_of_feed_err (data : List Nat) (scan s : Scanner)
    (h : feed scan.reset data = (s, false)) :
    checkValid data scan = (s.err, s) := by
  simp only [checkValid, h]
  rw [if_pos (by decide)]

/-- Feeding an opening brace while inside an anonymous-record chain whose
stack is already too deep records the `exceeded max depth` error. -/
theorem stepOf_brace_overflow (j b : Nat) (et fl : Bool)
    (h : ¬ (j + 1 + 1 ≤ maxNestingDepth)) :
    stepOf ⟨.sBeginObjectKeyOrEmpty, et,
        List.replicate j parseObjectValue ++ [parseObjectKey], none, b, fl⟩ 123
    = (⟨.sError, et, List.replicate (j + 1) parseObjectValue ++ [parseObjectKey],
        some ⟨"invalid character " ++ quoteChar 123 ++ " " ++ "exceeded max depth", b⟩,
        b, fl⟩, scanError) := by
  simp only [stepOf, stateBeginObjectKeyOrEmpty, Scanner.pushParseState,
    List.length_append, List.length_set, List.length_replicate, List.length_cons,
    List.length_nil]
  rw [if_pos trivial]
  rw [show j + 1 - 1 = j from by omega, replicate_concat_set,
    show List.replicate j parseObjectValue ++ [parseObjectValue]
      = List.replicate (j + 1) parseObjectValue from (List.replicate_succ' _ _).symm]
  rw [if_neg h]
  rw [if_neg (by decide), if_neg (by decide)]
  rfl

/-- Claim C6: nesting to depth exactly `maxNestingDepth` (10,000 parse-state
entries, here via a record brace followed by 9,999 anonymous-record braces)
produces no depth error — `checkValid` reports no error at all — while one
further brace, which would push entry 10,001, fails with the
`exceeded max depth` error recorded at the offset of the byte that pushed it
(13 prefix bytes + 10,001 braces = offset 10014). -/
theorem c6_depth_boundary :
    (checkValid (inputPrefixValue ++ List.replicate maxNestingDepth 123) newScanner).1 = none ∧
    (checkValid (inputPrefixValue ++ List.replicate (maxNestingDepth + 1) 123) newScanner).1 =
      some ⟨"invalid character \x27\x7b\x27 exceeded max depth", 10014⟩ := by
  have hpfx : feed newScanner.reset inputPrefixValue =
      (⟨.sBeginValue, true, [], none, 13, true⟩, true) := by decide
  have hbr := feed_braces 9999 0 14 true true (by simp [maxNestingDepth])
  norm_num at hbr
  have hone : feed (⟨.sBeginValue, true, [], none, 13, true⟩ : Scanner)
      (List.replicate maxNestingDepth 123)
      = (⟨.sBeginObjectKeyOrEmpty, true,
          List.replicate 9999 parseObjectValue ++ [parseObjectKey], none, 10013, true⟩, true) := by
    show feed (⟨.sBeginValue, true, [], none, 13, true⟩ : Scanner)
        (List.replicate (9999 + 1) 123) = _
    rw [List.replicate_succ]
    rw [feed_cons_step _ ⟨.sBeginObjectKeyOrEmpty, true,
        List.replicate 0 parseObjectValue ++ [parseObjectKey], none, 14, true⟩ 123
        scanBeginObject _ (by decide) (by decide)]
    exact hbr
  have hrun : feed newScanner.reset (inputPrefixValue ++ List.replicate maxNestingDepth 123)
      = (⟨.sBeginObjectKeyOrEmpty, true,
          List.replicate 9999 parseObjectValue ++ [parseObjectKey], none, 10013, true⟩, true) := by
    rw [feed_append, hpfx, if_pos rfl]
    exact hone
  have hstep_err := stepOf_brace_overflow 9999 (10013 + 1) true true
    (by simp [maxNestingDepth])
  constructor
  · rw [checkValid_of_feed_ok _ _ _ hrun,
      eof_of_endTop (⟨.sBeginObjectKeyOrEmpty, true,
        List.replicate 9999 parseObjectValue ++ [parseObjectKey], none, 10013, true⟩ : Scanner)
        rfl rfl]
    rw [if_neg (by decide)]
  · have hrun2 : feed newScanner.reset
        (inputPrefixValue ++ List.replicate (maxNestingDepth + 1) 123)
        = (⟨.sError, true, List.replicate (9999 + 1) parseObjectValue ++ [parseObjectKey],
            some ⟨"invalid character " ++ quoteChar 123 ++ " " ++ "exceeded max depth", 10013 + 1⟩,
            10013 + 1, true⟩, false) := by
      rw [show List.replicate (maxNestingDepth + 1) 123
          = List.replicate maxNestingDepth 123 ++ [123] from List.replicate_succ' _ _]
      rw [← List.append_assoc, feed_append, hrun, if_pos rfl]
      simp only [feed, hstep_err]
      rw [if_pos trivial]
    rw [checkValid_of_feed_err _ _ _ hrun2]
    decide

@[simp] theorem shiftErr_none (b : Nat) : shiftErr b none = none := rfl

@[simp] theorem shiftErr_some (b : Nat) (e : SyntaxError) :
    shiftErr b (some e) = some ⟨e.msg, e.offset + b⟩ := rfl

@[simp] theorem shiftErr_isSome (b : Nat) (e : Option SyntaxError) :
    (shiftErr b e).isSome = e.isSome := by cases e <;> rfl

@[simp] theorem shiftScanner_step (b : Nat) (s : Scanner) :
    (shiftScanner b s).step = s.step := rfl

@[simp] theorem shiftScanner_endTop (b : Nat) (s : Scanner) :
    (shiftScanner b s).endTop = s.endTop := rfl

@[simp] theorem shiftScanner_parseState (b : Nat) (s : Scanner) :
    (shiftScanner b s).parseState = s.parseState := rfl

@[simp] theorem shiftScanner_err (b : Nat) (s : Scanner) :
    (shiftScanner b s).err = shiftErr b s.err := rfl

@[simp] theorem shiftScanner_bytes (b : Nat) (s : Scanner) :
    (shiftScanner b s).bytes = s.bytes + b := rfl

@[simp] theorem shiftScanner_allow (b : Nat) (s : Scanner) :
    (shiftScanner b s).allowMultipleTopValues = s.allowMultipleTopValues := rfl

theorem shiftScanner_with_step (b : Nat) (s : Scanner) (x : ScanState) :
    ({ shiftScanner b s with step := x }) = shiftScanner b { s with step := x } := by
  simp [shiftScanner]

theorem shiftScanner_with_step_endTop (b : Nat) (s : Scanner) (x : ScanState) (v : Bool) :
    ({ shiftScanner b s with step := x, endTop := v })
      = shiftScanner b { s with step := x, endTop := v } := by
  simp [shiftScanner]

theorem shiftScanner_with_ps (b : Nat) (s : Scanner) (l : List Nat) :
    ({ shiftScanner b s with parseState := l })
      = shiftScanner b { s with parseState := l } := by
  simp [shiftScanner]

theorem shiftScanner_with_ps_step (b : Nat) (s : Scanner) (l : List Nat) (x : ScanState) :
    ({ shiftScanner b s with parseState := l, step := x })
      = shiftScanner b { s with parseState := l, step := x } := by
  simp [shiftScanner]

/-- `scanner.error` commutes with shifting the byte counter. -/
theorem error_shift (b : Nat) (s : Scanner) (c : Nat) (ctx : String) :
    Scanner.error (shiftScanner b s) c ctx
      = (shiftScanner b (Scanner.error s c ctx).1, (Scanner.error s c ctx).2) := by
  simp [Scanner.error, shiftScanner, shiftErr]

/-- `scanner.popParseState` commutes with shifting the byte counter. -/
theorem popParseState_shift (b : Nat) (s : Scanner) :
    (shiftScanner b s).popParseState = shiftScanner b s.popParseState := by
  simp only [Scanner.popParseState, shiftScanner_parseState]
  split_ifs <;> simp [shiftScanner, shiftErr]

/-- `scanner.pushParseState` commutes with shifting the byte counter. -/
theorem pushParseState_shift (b : Nat) (s : Scanner) (c p q : Nat) :
    Scanner.pushParseState (shiftScanner b s) c p q
      = (shiftScanner b (Scanner.pushParseState s c p q).1,
         (Scanner.pushParseState s c p q).2) := by
  simp only [Scanner.pushParseState, shiftScanner_parseState]
  split_ifs
  · simp [shiftScanner, shiftErr]
  · rw [shiftScanner_with_ps, error_shift]

/-- The transition functions never read the byte counter except to stamp
error offsets, so each commutes with `shiftScanner`.  One lemma per state
function, bottom-up. -/
theorem stateError_shift (b : Nat) (s : Scanner) (c : Nat) :
    stateError (shiftScanner b s) c
      = (shiftScanner b (stateError s c).1, (stateError s c).2) := rfl

theorem stateEndTop_shift (b : Nat) (s : Scanner) (c : Nat) :
    stateEndTop (shiftScanner b s) c
      = (shiftScanner b (stateEndTop s c).1, (stateEndTop s c).2) := by
  simp only [stateEndTop, shiftScanner_allow]
  split_ifs <;> simp [shiftScanner, shiftErr]

theorem shiftScanner_mk_step (b : Nat) (s : Scanner) (x : ScanState) :
    (⟨x, s.endTop, s.parseState, shiftErr b s.err, s.bytes + b,
      s.allowMultipleTopValues⟩ : Scanner)
      = shiftScanner b { s with step := x } := by
  simp [shiftScanner]

theorem shiftScanner_mk_step_endTop (b : Nat) (s : Scanner) (x : ScanState) (v : Bool) :
    (⟨x, v, s.parseState, shiftErr b s.err, s.bytes + b,
      s.allowMultipleTopValues⟩ : Scanner)
      = shiftScanner b { s with step := x, endTop := v } := by
  simp [shiftScanner]

theorem shiftScanner_mk_ps_step (b : Nat) (s : Scanner) (l : List Nat) (x : ScanState) :
    (⟨x, s.endTop, l, shiftErr b s.err, s.bytes + b,
      s.allowMultipleTopValues⟩ : Scanner)
      = shiftScanner b { s with parseState := l, step := x } := by
  simp [shiftScanner]

theorem stateEndValue_shift (b : Nat) (s : Scanner) (c : Nat) :
    stateEndValue (shiftScanner b s) c
      = (shiftScanner b (stateEndValue s c).1, (stateEndValue s c).2) := by
  simp only [stateEndValue, shiftScanner_step, shiftScanner_endTop,
    shiftScanner_parseState, shiftScanner_err, shiftScanner_bytes, shiftScanner_allow]
  by_cases h1 : s.parseState.length = 0
  · simp only [if_pos h1]
    rw [shiftScanner_mk_step_endTop, stateEndTop_shift]
  · simp only [if_neg h1]
    by_cases h2 : isSpace c = true
    · simp only [if_pos h2]
      rw [shiftScanner_mk_step]
    · simp only [if_neg h2]
      by_cases h3 : s.parseState.getD (s.parseState.length - 1) 0 = parseIdentifier
      · simp only [if_pos h3]
        by_cases h4 : c = 58
        · simp only [if_pos h4]
          rw [popParseState_shift]
          simp only [shiftScanner_step, shiftScanner_endTop, shiftScanner_parseState,
            shiftScanner_err, shiftScanner_bytes, shiftScanner_allow]
          rw [shiftScanner_mk_step]
        · simp only [if_neg h4]
          by_cases h5 : isLiteral c = true
          · simp only [if_pos h5]
            rw [popParseState_shift]
            simp only [shiftScanner_step, shiftScanner_endTop, shiftScanner_parseState,
              shiftScanner_err, shiftScanner_bytes, shiftScanner_allow]
            rw [shiftScanner_mk_step, pushParseState_shift]
          · simp only [if_neg h5]
            rw [popParseState_shift, error_shift]
      · simp only [if_neg h3]
        by_cases h6 : s.parseState.getD (s.parseState.length - 1) 0 = parseType
        · simp only [if_pos h6]
          by_cases h7 : c = 58
          · simp only [if_pos h7]
            rw [popParseState_shift]
            simp only [shiftScanner_step, shiftScanner_endTop, shiftScanner_parseState,
              shiftScanner_err, shiftScanner_bytes, shiftScanner_allow]
            rw [shiftScanner_mk_step]
          · simp only [if_neg h7]
            rw [error_shift]
        · simp only [if_neg h6]
          by_cases h8 : s.parseState.getD (s.parseState.length - 1) 0 = parseValueName
          · simp only [if_pos h8]
            by_cases h9 : c = 58
            · simp only [if_pos h9]
              rw [popParseState_shift]
              simp only [shiftScanner_step, shiftScanner_endTop, shiftScanner_parseState,
                shiftScanner_err, shiftScanner_bytes, shiftScanner_allow]
              rw [shiftScanner_mk_step]
            · simp only [if_neg h9]
              rw [popParseState_shift, error_shift]
          · simp only [if_neg h8]
            by_cases h10 : s.parseState.getD (s.parseState.length - 1) 0 = parseObjectKey
            · simp only [if_pos h10]
              by_cases h11 : isLiteral c = true
              · simp only [if_pos h11]
                rw [shiftScanner_mk_ps_step]
              · simp only [if_neg h11]
                rw [error_shift]
            · simp only [if_neg h10]
              by_cases h12 : s.parseState.getD (s.parseState.length - 1) 0 = parseObjectValue
              · simp only [if_pos h12]
                by_cases h13 : c = 44
                · simp only [if_pos h13]
                  rw [shiftScanner_mk_ps_step]
                · simp only [if_neg h13]
                  by_cases h14 : c = 125
                  · simp only [if_pos h14]
                    rw [popParseState_shift]
                  · simp only [if_neg h14]
                    rw [error_shift]
              · simp only [if_neg h12]
                rw [error_shift]

theorem stateAssignmentOperator1_shift (b : Nat) (s : Scanner) (c : Nat) :
    stateAssignmentOperator1 (shiftScanner b s) c
      = (shiftScanner b (stateAssignmentOperator1 s c).1, (stateAssignmentOperator1 s c).2) := by
  simp only [stateAssignmentOperator1, Scanner.error]
  split_ifs <;> simp [shiftScanner, shiftErr]

theorem stateAssignmentOperator2_shift (b : Nat) (s : Scanner) (c : Nat) :
    stateAssignmentOperator2 (shiftScanner b s) c
      = (shiftScanner b (stateAssignmentOperator2 s c).1, (stateAssignmentOperator2 s c).2) := by
  simp only [stateAssignmentOperator2, Scanner.error]
  split_ifs <;> simp [shiftScanner, shiftErr]

theorem stateBeginName_shift (b : Nat) (s : Scanner) (c : Nat) :
    stateBeginName (shiftScanner b s) c
      = (shiftScanner b (stateBeginName s c).1, (stateBeginName s c).2) := by
  simp only [stateBeginName, Scanner.error]
  split_ifs <;> simp [shiftScanner, shiftErr]

theorem stateInName_shift (b : Nat) (s : Scanner) (c : Nat) :
    stateInName (shiftScanner b s) c
      = (shiftScanner b (stateInName s c).1, (stateInName s c).2) := by
  simp only [stateInName, Scanner.error]
  split_ifs <;> simp [shiftScanner, shiftErr]

theorem stateBeginValueName_shift (b : Nat) (s : Scanner) (c : Nat) :
    stateBeginValueName (shiftScanner b s) c
      = (shiftScanner b (stateBeginValueName s c).1, (stateBeginValueName s c).2) := by
  simp only [stateBeginValueName, Scanner.error, Scanner.pushParseState,
    shiftScanner_parseState, shiftScanner_err, shiftScanner_bytes]
  split_ifs <;> simp [shiftScanner, shiftErr]

theorem stateInValueName_shift (b : Nat) (s : Scanner) (c : Nat) :
    stateInValueName (shiftScanner b s) c
      = (shiftScanner b (stateInValueName s c).1, (stateInValueName s c).2) := by
  simp only [stateInValueName, Scanner.error]
  split_ifs <;> simp [shiftScanner, shiftErr]

theorem stateBeginObjectKey_shift (b : Nat) (s : Scanner) (c : Nat) :
    stateBeginObjectKey (shiftScanner b s) c
      = (shiftScanner b (stateBeginObjectKey s c).1, (stateBeginObjectKey s c).2) := by
  simp only [stateBeginObjectKey, Scanner.error]
  split_ifs <;> simp [shiftScanner, shiftErr]

theorem stateInObjectKey_shift (b : Nat) (s : Scanner) (c : Nat) :
    stateInObjectKey (shiftScanner b s) c
      = (shiftScanner b (stateInObjectKey s c).1, (stateInObjectKey s c).2) := by
  simp only [stateInObjectKey, shiftScanner_parseState]
  split_ifs <;> simp [shiftScanner, shiftErr]

theorem stateBeginObjectKeyOrEmpty_shift (b : Nat) (s : Scanner) (c : Nat) :
    stateBeginObjectKeyOrEmpty (shiftScanner b s) c
      = (shiftScanner b (stateBeginObjectKeyOrEmpty s c).1,
         (stateBeginObjectKeyOrEmpty s c).2) := by
  simp only [stateBeginObjectKeyOrEmpty, shiftScanner_parseState]
  split_ifs with h1 h2 h3
  · simp [shiftScanner, shiftErr]
  · rw [show ({ shiftScanner b s with
        parseState := s.parseState.set (s.parseState.length - 1) parseObjectValue })
        = shiftScanner b { s with
            parseState := s.parseState.set (s.parseState.length - 1) parseObjectValue }
      from by simp [shiftScanner]]
    rw [stateEndValue_shift]
  · rw [show ({ shiftScanner b s with
        parseState := s.parseState.set (s.parseState.length - 1) parseObjectValue,
        step := ScanState.sBeginObjectKeyOrEmpty })
        = shiftScanner b { s with
            parseState := s.parseState.set (s.parseState.length - 1) parseObjectValue,
            step := ScanState.sBeginObjectKeyOrEmpty }
      from by simp [shiftScanner]]
    simp only [Scanner.pushParseState, shiftScanner_parseState, shiftScanner_err,
      shiftScanner_bytes]
    split_ifs <;> simp [shiftScanner, shiftErr, Scanner.error]
  · rw [stateBeginObjectKey_shift]

theorem stateBeginValue_shift (b : Nat) (s : Scanner) (c : Nat) :
    stateBeginValue (shiftScanner b s) c
      = (shiftScanner b (stateBeginValue s c).1, (stateBeginValue s c).2) := by
  simp only [stateBeginValue, Scanner.error, Scanner.pushParseState,
    Scanner.popParseState, shiftScanner_step, shiftScanner_parseState,
    shiftScanner_err, shiftScanner_bytes]
  split_ifs <;> simp [shiftScanner, shiftErr]

theorem stateInOctetString_shift (b : Nat) (s : Scanner) (c : Nat) :
    stateInOctetString (shiftScanner b s) c
      = (shiftScanner b (stateInOctetString s c).1, (stateInOctetString s c).2) := by
  simp only [stateInOctetString, Scanner.error]
  split_ifs <;> simp [shiftScanner, shiftErr]

theorem stateInHexadecimalString_shift (b : Nat) (s : Scanner) (c : Nat) :
    stateInHexadecimalString (shiftScanner b s) c
      = (shiftScanner b (stateInHexadecimalString s c).1,
         (stateInHexadecimalString s c).2) := by
  simp only [stateInHexadecimalString, Scanner.error]
  split_ifs <;> simp [shiftScanner, shiftErr]

theorem stateSuffixAfterHexadecimalString_shift (b : Nat) (s : Scanner) (c : Nat) :
    stateSuffixAfterHexadecimalString (shiftScanner b s) c
      = (shiftScanner b (stateSuffixAfterHexadecimalString s c).1,
         (stateSuffixAfterHexadecimalString s c).2) := by
  simp only [stateSuffixAfterHexadecimalString, Scanner.error]
  split_ifs <;> simp [shiftScanner, shiftErr]

theorem stateN_shift (b : Nat) (s : Scanner) (c : Nat) :
    stateN (shiftScanner b s) c = (shiftScanner b (stateN s c).1, (stateN s c).2) := by
  simp only [stateN, Scanner.error]
  split_ifs <;> simp [shiftScanner, shiftErr]

theorem stateNu_shift (b : Nat) (s : Scanner) (c : Nat) :
    stateNu (shiftScanner b s) c = (shiftScanner b (stateNu s c).1, (stateNu s c).2) := by
  simp only [stateNu, Scanner.error]
  split_ifs <;> simp [shiftScanner, shiftErr]

theorem stateNul_shift (b : Nat) (s : Scanner) (c : Nat) :
    stateNul (shiftScanner b s) c = (shiftScanner b (stateNul s c).1, (stateNul s c).2) := by
  simp only [stateNul, Scanner.error]
  split_ifs <;> simp [shiftScanner, shiftErr]

theorem state0_shift (b : Nat) (s : Scanner) (c : Nat) :
    state0 (shiftScanner b s) c = (shiftScanner b (state0 s c).1, (state0 s c).2) := by
  simp only [state0]
  split_ifs
  · simp [shiftScanner, shiftErr]
  · simp [shiftScanner, shiftErr]
  · rw [stateEndValue_shift]

theorem state1_shift (b : Nat) (s : Scanner) (c : Nat) :
    state1 (shiftScanner b s) c = (shiftScanner b (state1 s c).1, (state1 s c).2) := by
  simp only [state1]
  split_ifs
  · simp [shiftScanner, shiftErr]
  · rw [state0_shift]

theorem stateDot_shift (b : Nat) (s : Scanner) (c : Nat) :
    stateDot (shiftScanner b s) c = (shiftScanner b (stateDot s c).1, (stateDot s c).2) := by
  simp only [stateDot, Scanner.error]
  split_ifs <;> simp [shiftScanner, shiftErr]

theorem stateDot0_shift (b : Nat) (s : Scanner) (c : Nat) :
    stateDot0 (shiftScanner b s) c = (shiftScanner b (stateDot0 s c).1, (stateDot0 s c).2) := by
  simp only [stateDot0]
  split_ifs
  · simp [shiftScanner, shiftErr]
  · simp [shiftScanner, shiftErr]
  · rw [stateEndValue_shift]

theorem stateESign_shift (b : Nat) (s : Scanner) (c : Nat) :
    stateESign (shiftScanner b s) c = (shiftScanner b (stateESign s c).1, (stateESign s c).2) := by
  simp only [stateESign, Scanner.error]
  split_ifs <;> simp [shiftScanner, shiftErr]

theorem stateE_shift (b : Nat) (s : Scanner) (c : Nat) :
    stateE (shiftScanner b s) c = (shiftScanner b (stateE s c).1, (stateE s c).2) := by
  simp only [stateE]
  split_ifs
  · simp [shiftScanner, shiftErr]
  · rw [stateESign_shift]

theorem stateE0_shift (b : Nat) (s : Scanner) (c : Nat) :
    stateE0 (shiftScanner b s) c = (shiftScanner b (stateE0 s c).1, (stateE0 s c).2) := by
  simp only [stateE0]
  split_ifs
  · simp [shiftScanner, shiftErr]
  · rw [stateEndValue_shift]

theorem stateBeginTop_shift (b : Nat) (s : Scanner) (c : Nat) :
    stateBeginTop (shiftScanner b s) c
      = (shiftScanner b (stateBeginTop s c).1, (stateBeginTop s c).2) := by
  simp only [stateBeginTop, Scanner.error, Scanner.pushParseState,
    shiftScanner_parseState, shiftScanner_err, shiftScanner_bytes]
  split_ifs <;> simp [shiftScanner, shiftErr]

/-- A single transition commutes with shifting the byte counter. -/
theorem stepOf_shift (b : Nat) (s : Scanner) (c : Nat) :
    stepOf (shiftScanner b s) c = (shiftScanner b (stepOf s c).1, (stepOf s c).2) := by
  cases h : s.step <;>
    simp only [stepOf, shiftScanner_step, h] <;>
    first
      | exact stateBeginTop_shift b s c
      | exact stateBeginName_shift b s c
      | exact stateInName_shift b s c
      | exact stateAssignmentOperator1_shift b s c
      | exact stateAssignmentOperator2_shift b s c
      | exact stateBeginValueName_shift b s c
      | exact stateInValueName_shift b s c
      | exact stateBeginValue_shift b s c
      | exact stateEndValue_shift b s c
      | exact stateEndTop_shift b s c
      | exact stateBeginObjectKeyOrEmpty_shift b s c
      | exact stateBeginObjectKey_shift b s c
      | exact stateInObjectKey_shift b s c
      | exact stateInOctetString_shift b s c
      | exact stateInHexadecimalString_shift b s c
      | exact stateSuffixAfterHexadecimalString_shift b s c
      | exact stateN_shift b s c
      | exact stateNu_shift b s c
      | exact stateNul_shift b s c
      | exact state1_shift b s c
      | exact state0_shift b s c
      | exact stateDot_shift b s c
      | exact stateDot0_shift b s c
      | exact stateE_shift b s c
      | exact stateESign_shift b s c
      | exact stateE0_shift b s c
      | exact stateError_shift b s c

/-- End-of-input commutes with shifting the byte counter. -/
theorem eof_shift (b : Nat) (s : Scanner) :
    (shiftScanner b s).eof = (shiftScanner b s.eof.1, s.eof.2) := by
  simp only [Scanner.eof, shiftScanner_err, shiftScanner_endTop, shiftErr_isSome,
    stepOf_shift, shiftScanner_bytes]
  by_cases h1 : s.err.isSome = true
  · simp only [if_pos h1]
  · simp only [if_neg h1]
    by_cases h2 : s.endTop = true
    · simp only [if_pos h2]
    · simp only [if_neg h2]
      by_cases h3 : (stepOf s 32).1.endTop = true
      · simp only [if_pos h3]
      · simp only [if_neg h3]
        by_cases h4 : (stepOf s 32).1.err.isSome = true
        · simp only [if_pos h4]
        · simp only [if_neg h4]
          simp [shiftScanner, shiftErr]

/-- The byte loop commutes with shifting the byte counter. -/
theorem feed_shift (b : Nat) (s : Scanner) (data : List Nat) :
    feed (shiftScanner b s) data = (shiftScanner b (feed s data).1, (feed s data).2) := by
  induction data generalizing s with
  | nil => simp [feed]
  | cons c rest ih =>
    simp only [feed]
    rw [show ({ shiftScanner b s with bytes := (shiftScanner b s).bytes + 1 })
        = shiftScanner b { s with bytes := s.bytes + 1 } from by
      simp [shiftScanner]; omega]
    rw [stepOf_shift]
    by_cases h : (stepOf { s with bytes := s.bytes + 1 } c).2 = scanError
    · simp [h]
    · simp [h, ih]

/-- Resetting commutes with shifting the byte counter. -/
theorem reset_shift (b : Nat) (s : Scanner) :
    (shiftScanner b s).reset = shiftScanner b s.reset := by
  simp [Scanner.reset, shiftScanner, shiftErr]

/-- Counterexample for claim C5: scanning `@` twice in a row on one instance
(the second scan re-resets it, and `reset` deliberately keeps the byte
counter) yields the same verdict and message but error offset 2, while a
fresh instance reports offset 1. -/
theorem c5_repeat_scan_offset_differs :
    (checkValid [64] (checkValid [64] newScanner).2).1 =
      some ⟨"invalid character \x27@\x27 looking for beginning of top value", 2⟩ ∧
    (checkValid [64] newScanner).1 =
      some ⟨"invalid character \x27@\x27 looking for beginning of top value", 1⟩ := by
  decide

/-- Claim C5 as amended: for every input and every starting scanner state,
`checkValid` yields the same success/error verdict and the same error message
as a fresh instance with the same `allowMultipleTopValues` flag; the error
offset is shifted by exactly the byte count the instance carried into the
scan (since `reset` deliberately does not zero `bytes`).  In particular any
accepted input is accepted again on re-scan. -/
theorem c5_verdict_deterministic_offset_shifted (data : List Nat) (s : Scanner) :
    (checkValid data s).1 =
      shiftErr s.bytes
        ((checkValid data
          ⟨.sBeginTop, false, [], none, 0, s.allowMultipleTopValues⟩).1) := by
  have hreset : s.reset = shiftScanner s.bytes
      (Scanner.reset ⟨.sBeginTop, false, [], none, 0, s.allowMultipleTopValues⟩) := by
    simp [Scanner.reset, shiftScanner, shiftErr]
  simp only [checkValid, hreset, feed_shift]
  by_cases h1 : (feed
      (Scanner.reset ⟨.sBeginTop, false, [], none, 0, s.allowMultipleTopValues⟩) data).2
      = false
  · simp [h1]
  · simp only [h1]
    rw [eof_shift]
    by_cases h2 : (feed
        (Scanner.reset ⟨.sBeginTop, false, [], none, 0, s.allowMultipleTopValues⟩)
          data).1.eof.2 = scanError
    · simp [h2]
    · simp [h2]
